import Mathlib

/-!
Verification of the Agilepy sources-library core against its specification.

Embedded code: `src/agilepy/api/SourcesLibrary.py` (catalog selection, mutation,
fitter-output parsing and the fixed-column text encoder with its free/fixed
bitmask) and `src/agilepy/utils/Parameters.py` (energy-bin table).

Embedding conventions:
* Python strings are lists of characters (`Str`); string concatenation is `++`.
* XML attribute values (parameter values and bounds) stay strings, exactly as the
  Python code manipulates them; fit-result numerics are rationals.
* Fallible operations return `Option` or `Except AgilepyError`; `exit(1)` after a
  `critical` log is a fatal error value.
* The dataclasses module `agilepy/dataclasses/Source.py` and the angular-distance
  helper `agilepy.utils.Utils.Astro` are imported by the code but are not part of
  the sources under verification; their members are modelled from the spec and
  marked `Modelled from the spec:` where they appear.
-/

namespace Agilepy


/-- Python strings are modelled as lists of characters. -/
abbrev Str := List Char

/-- Whitespace for splitting an encoder output line into fields (the encoder
emits only blanks and the terminating newline between fields). -/
def isSpaceChar (c : Char) : Bool := c = ' ' || c = '\n'

/-- A non-empty run of non-whitespace characters: one field of an output line. -/
def isWordB (w : Str) : Bool := !w.isEmpty && w.all (fun c => !isSpaceChar c)

/-- Accumulator-based whitespace tokenizer (the reading a consumer applies to a
space-separated line). -/
def wordsAux : Str → Str → List Str
  | [], acc => if acc.isEmpty then [] else [acc.reverse]
  | c :: cs, acc =>
      if isSpaceChar c then
        if acc.isEmpty then wordsAux cs [] else acc.reverse :: wordsAux cs []
      else wordsAux cs (c :: acc)

/-- The whitespace-separated fields of a line. -/
def words (s : Str) : List Str := wordsAux s []

/-- Fuel-based decimal printer: the recursion peels one base-10 digit per step,
with enough fuel to exhaust the number. -/
def natDigitsAux : Nat → Nat → Str → Str
  | 0, _, acc => acc
  | fuel + 1, n, acc =>
      let d := Nat.digitChar (n % 10)
      if n / 10 = 0 then d :: acc
      else natDigitsAux fuel (n / 10) (d :: acc)

/-- Decimal rendering of a natural number, Python `str(n)`. -/
def natDigits (n : Nat) : Str := natDigitsAux (n + 1) n []

/-!
## Data model

`Parameter`, `Spectrum`, `SpatialModel`, `Source`, `MultiOutput` and
`SourceLibrary` live in `agilepy/dataclasses/Source.py`, which is not among the
sources under verification; their shape is modelled from the spec (section 3).
Attribute values parsed from XML stay strings; the `free` flags are the numbers
0/1 (0/1/2 for the spatial model) of spec section 3.
-/

/-- A `<parameter name=.. value=.. min=.. max=.. free=..>` element. -/
structure Parameter where
  name : Str
  value : Str
  min : Str
  max : Str
  free : Nat
deriving DecidableEq

/-- A typed spectrum model: a type tag plus its ordered parameters. -/
structure Spectrum where
  type : Str
  parameters : List Parameter
deriving DecidableEq

/-- A spatial model: its bitmask-contributing `free` field (0/1/2), the
location-limit string and its ordered parameters (GLON/GLAT among them). -/
structure SpatialModel where
  type : Str
  free : Nat
  location_limit : Str
  parameters : List Parameter
deriving DecidableEq

/-- The record parsed from the external fitter's output and attached back onto a
source (`MultiOutput`).  `label`, `L`, `B`, `start_l`, `start_b` and `Dist` are
the fields `updateMulti` reads or writes; `attrs` is the selection engine's view
of the record: a numeric attribute per name (Python
`float(getattr(source.multi, param))`). -/
structure MultiOutput where
  label : Str
  L : ℚ
  B : ℚ
  start_l : ℚ
  start_b : ℚ
  Dist : ℝ
  attrs : Str → ℚ

/-- A catalogued source. -/
structure Source where
  name : Str
  spectrum : Spectrum
  spatialModel : SpatialModel
  multi : Option MultiOutput

/-- The source catalog.  `selectionMultiParams` and `freeParams` are the
registries behind `getSelectionParams(multi=True)` and `getFreeParams()` of the
dataclasses module.  Modelled from the spec: the selection registry is `Name`
plus the fit-result-sourced parameter names (spec 4.2); the free-able registry is
a catalog-level list of parameter names (spec 4.3). -/
structure SourceLibrary where
  sources : List Source
  selectionMultiParams : List Str
  freeParams : List Str

/-- Fatal error outcomes of the embedded operations.  `formatError`,
`lookupError` model the `critical`-log-then-`exit(1)` paths; `indexError`,
`valueError` and `nameError` model the corresponding Python exceptions;
`encodingError` models a failed parameter lookup during encoding (spec 4.4). -/
inductive AgilepyError
  | formatError
  | lookupError
  | nameError
  | encodingError
  | indexError
  | valueError
deriving DecidableEq

/-- Which attribute of a parameter `getParamAttributeWhere` reads. -/
inductive Attr
  | value
  | min
  | max
deriving DecidableEq

def Parameter.attr : Parameter → Attr → Str
  | p, .value => p.value
  | p, .min => p.min
  | p, .max => p.max

/-- Modelled from the spec: `getParamAttributeWhere(attributeName, "name", v)` of
the dataclasses module (not under `src/`): the requested attribute of the
parameter whose name is `v`, and no result when the parameter is absent (a
missing referenced parameter is fatal during encoding, spec 4.4).  The last
match is taken, mirroring the `.pop()` used by the in-src flux lookup. -/
def getParamAttributeWhere (ps : List Parameter) (a : Attr) (nm : Str) :
    Option Str :=
  ((ps.filter (fun p => p.name == nm)).getLast?).map (fun p => p.attr a)

/-- Modelled from the spec: `getFreeAttributeValueOf("name", v)` of the
dataclasses module (not under `src/`): the `free` flag (0/1, spec section 3) of
the parameter named `v`; `none` when the parameter is absent — spec section 8
treats positions of parameters absent from the model as contributing no digit to
the bitmask, so absence is not an error here. -/
def getFreeAttributeValueOf (ps : List Parameter) (nm : Str) : Option Nat :=
  ((ps.filter (fun p => p.name == nm)).getLast?).map (fun p => p.free)

/-!
## The free/fixed bitmask (`SourcesLibrary._computeFixFlag`)
-/

/-- Base-2 parse of a digit string, Python `int(s, 2)` on the digit strings the
encoder builds: fails on the empty string and on any character other than
`0`/`1` (a `ValueError`). -/
def parseBin (cs : Str) : Option Nat :=
  if cs.isEmpty then none
  else
    cs.foldlM
      (fun acc c =>
        if c = '0' then some (2 * acc)
        else if c = '1' then some (2 * acc + 1) else none)
      0

/-- The digit string contributed to the bitmask by the named spectrum
parameter: the rendering of its `free` flag, or nothing when the parameter is
absent from the model. -/
def freeDigits (ps : List Parameter) (nm : Str) : Str :=
  match getFreeAttributeValueOf ps nm with
  | none => []
  | some f => natDigits f

/-- `SourcesLibrary._computeFixFlag`: if the Flux parameter's `free` flag is 0
the computation is skipped and 0 is returned; otherwise the flag digits are
concatenated — in one of two orders keyed on `spatialModel.free == 2` — and the
resulting digit string is parsed in base 2. -/
def computeFixFlag (source : Source) : Option Nat :=
  if getFreeAttributeValueOf source.spectrum.parameters "Flux".toList
      = some 0 then some 0
  else
    let sp := source.spectrum.parameters
    let bitmask : Str :=
      if source.spatialModel.free = 2 then
        natDigits source.spatialModel.free ++
        freeDigits sp "Curvature".toList ++ freeDigits sp "Index2".toList ++
        freeDigits sp "CutoffEnergy".toList ++
        freeDigits sp "PivotEnergy".toList ++
        freeDigits sp "Index".toList ++ freeDigits sp "Index1".toList ++
        ['0'] ++ freeDigits sp "Flux".toList
      else
        freeDigits sp "Curvature".toList ++ freeDigits sp "Index2".toList ++
        freeDigits sp "CutoffEnergy".toList ++
        freeDigits sp "PivotEnergy".toList ++
        freeDigits sp "Index".toList ++ freeDigits sp "Index1".toList ++
        natDigits source.spatialModel.free ++
        freeDigits sp "Flux".toList
    parseBin bitmask

/-- A concrete power-law-shaped source with `Flux.free = 1`, `Index.free = 1`
and everything else fixed: witness input for C1. -/
def src1 : Source :=
  { name := "src1".toList
    spectrum :=
      { type := "PowerLaw".toList
        parameters :=
          [ { name := "Flux".toList, value := "10".toList, min := "1".toList,
              max := "20".toList, free := 1 }
          , { name := "Index".toList, value := "2".toList, min := "1".toList,
              max := "3".toList, free := 1 }
          , { name := "Curvature".toList, value := "0".toList,
              min := "0".toList, max := "1".toList, free := 0 }
          , { name := "Index2".toList, value := "0".toList, min := "0".toList,
              max := "1".toList, free := 0 }
          , { name := "CutoffEnergy".toList, value := "0".toList,
              min := "0".toList, max := "1".toList, free := 0 }
          , { name := "PivotEnergy".toList, value := "0".toList,
              min := "0".toList, max := "1".toList, free := 0 }
          , { name := "Index1".toList, value := "0".toList, min := "0".toList,
              max := "1".toList, free := 0 } ] }
    spatialModel :=
      { type := "PointSource".toList, free := 0,
        location_limit := "0".toList, parameters := [] }
    multi := none }

/-- Witness input for C2: Flux fixed, everything else free and spatial
`free = 2`. -/
def src2 : Source :=
  { name := "src2".toList
    spectrum :=
      { type := "PLSuperExpCutoff".toList
        parameters :=
          [ { name := "Flux".toList, value := "10".toList, min := "1".toList,
              max := "20".toList, free := 0 }
          , { name := "Index1".toList, value := "2".toList, min := "1".toList,
              max := "3".toList, free := 1 }
          , { name := "Index2".toList, value := "1".toList, min := "0".toList,
              max := "2".toList, free := 1 }
          , { name := "CutoffEnergy".toList, value := "3000".toList,
              min := "100".toList, max := "9000".toList, free := 1 } ] }
    spatialModel :=
      { type := "PointSource".toList, free := 2,
        location_limit := "0".toList, parameters := [] }
    multi := none }

/-!
## Selection engine (`SourcesLibrary.selectSourcesWithLambda` and helpers)

A user predicate is embedded as the list of its declared parameter names
(Python reads them with `inspect.signature`) together with a boolean function
of the positionally resolved values.
-/

/-- A value handed to a selection predicate: the source name for `Name`,
otherwise a numeric fit-result attribute. -/
inductive SelVal
  | str (s : Str)
  | num (q : ℚ)

/-- The registry of supported selection attributes: `Name` plus the
fit-result-sourced parameter names (spec 4.2, `getSelectionParams()` of the
dataclasses module). -/
def registryOf (lib : SourceLibrary) : List Str :=
  "Name".toList :: lib.selectionMultiParams

/-- `SourcesLibrary._validateSelectionParams`: keep the declared names found in
the registry (each dropped name is only warned about, non-fatally). -/
def validateSelectionParams (lib : SourceLibrary) (userParams : List Str) :
    List Str :=
  userParams.filter (fun p => decide (p ∈ registryOf lib))

/-- `SourcesLibrary._needMultiParams`: does some validated name require a fit
result on the source? -/
def needMultiParams (lib : SourceLibrary) (validated : List Str) : Bool :=
  validated.any (fun p => decide (p ∈ lib.selectionMultiParams))

/-- The per-source guard of the selection loop: a source is skipped when a
validated parameter requires `multi` and the source has none. -/
def eligibleSource (lib : SourceLibrary) (validated : List Str) (s : Source) :
    Bool :=
  !(needMultiParams lib validated && s.multi.isNone)

/-- Resolution of one validated parameter name on a source: `Name` resolves to
the source's name, every other validated name to the numeric attribute of the
source's fit result.  (The `none` branch returns 0; the selection loop never
reaches it, because sources without `multi` are skipped whenever a non-`Name`
name validated.) -/
def resolveParam (s : Source) (p : Str) : SelVal :=
  if p = "Name".toList then .str s.name
  else
    match s.multi with
    | some m => .num (m.attrs p)
    | none => .num 0

/-- `SourcesLibrary.selectSourcesWithLambda`. -/
def selectSourcesWithLambda (lib : SourceLibrary) (declared : List Str)
    (pred : List SelVal → Bool) : List Source :=
  if (validateSelectionParams lib declared).isEmpty then []
  else
    lib.sources.filter (fun s =>
      eligibleSource lib (validateSelectionParams lib declared) s
        && pred ((validateSelectionParams lib declared).map
            (fun p => resolveParam s p)))

/-- The (name, value) argument lists the selection loop passes to the
predicate: one invocation per eligible source, in catalog order — this mirrors
the loop of `selectSourcesWithLambda` invocation for invocation. -/
def selectInvocations (lib : SourceLibrary) (declared : List Str) :
    List (List (Str × SelVal)) :=
  if (validateSelectionParams lib declared).isEmpty then []
  else
    (lib.sources.filter
        (eligibleSource lib (validateSelectionParams lib declared))).map
      (fun s => (validateSelectionParams lib declared).map
        (fun p => (p, resolveParam s p)))

/-- The characteristic function of selection: a source is selected iff some
name validated, the source is eligible, and the predicate holds on the
resolved values. -/
def selectPred (lib : SourceLibrary) (declared : List Str)
    (pred : List SelVal → Bool) (s : Source) : Bool :=
  !(validateSelectionParams lib declared).isEmpty
    && (eligibleSource lib (validateSelectionParams lib declared) s
        && pred ((validateSelectionParams lib declared).map
            (fun p => resolveParam s p)))

/-- The predicate `lambda Name : Name == x`, selection by exact name match. -/
def namePred (x : Str) : List SelVal → Bool
  | [SelVal.str n] => n == x
  | _ => false

/-- Witness input for C7: a catalog whose registry knows no name the predicate
declares. -/
def src7 : Source :=
  { name := "A".toList,
    spectrum := { type := "PowerLaw".toList, parameters := [] },
    spatialModel :=
      { type := "PointSource".toList, free := 0,
        location_limit := "0".toList, parameters := [] },
    multi := none }

def lib7 : SourceLibrary :=
  { sources := [src7],
    selectionMultiParams := ["Flux".toList],
    freeParams := ["Flux".toList] }

/-- Witness inputs for C8: two sources, one named `A`. -/
def src8a : Source :=
  { name := "A".toList,
    spectrum := { type := "PowerLaw".toList, parameters := [] },
    spatialModel :=
      { type := "PointSource".toList, free := 0,
        location_limit := "0".toList, parameters := [] },
    multi := none }

def src8b : Source :=
  { name := "B".toList,
    spectrum := { type := "PowerLaw".toList, parameters := [] },
    spatialModel :=
      { type := "PointSource".toList, free := 0,
        location_limit := "0".toList, parameters := [] },
    multi := none }

def lib8 : SourceLibrary :=
  { sources := [src8a, src8b],
    selectionMultiParams := ["Flux".toList],
    freeParams := ["Flux".toList] }

/-- `SourcesLibrary.deleteSources`.  The Python removal keeps the catalog
sources that are not among the selected ones (`s not in sourcesToBeDeleted`);
since selection is determined by a source's own attributes, the occurrences
removed are exactly those satisfying the selection predicate, which is how the
removal is embedded (spec 4.3 calls this identity-based removal). -/
def deleteSources (lib : SourceLibrary) (declared : List Str)
    (pred : List SelVal → Bool) : List Source × SourceLibrary :=
  (selectSourcesWithLambda lib declared pred,
   { lib with sources :=
       lib.sources.filter (fun s => !selectPred lib declared pred s) })

/-- Witness inputs for C9: two distinct sources sharing the name `D`. -/
def src9a : Source :=
  { name := "D".toList,
    spectrum := { type := "PowerLaw".toList, parameters := [] },
    spatialModel :=
      { type := "PointSource".toList, free := 0,
        location_limit := "0".toList, parameters := [] },
    multi := none }

def src9b : Source :=
  { name := "D".toList,
    spectrum := { type := "PLExpCutoff".toList, parameters := [] },
    spatialModel :=
      { type := "PointSource".toList, free := 0,
        location_limit := "0".toList, parameters := [] },
    multi := none }

def lib9 : SourceLibrary :=
  { sources := [src9a, src9b],
    selectionMultiParams := [],
    freeParams := [] }

/-- Modelled from the spec: `Source.setFreeAttributeValueOf` of the dataclasses
module (not under `src/`): set the named parameter's `free` flag wherever the
name matches, in the spectrum and in the spatial model (spec 4.3). -/
def setFreeAttributeValueOf (s : Source) (nm : Str) (fr : Nat) : Source :=
  { s with
    spectrum :=
      { s.spectrum with
        parameters := s.spectrum.parameters.map
          (fun p => if p.name == nm then { p with free := fr } else p) },
    spatialModel :=
      { s.spatialModel with
        parameters := s.spatialModel.parameters.map
          (fun p => if p.name == nm then { p with free := fr } else p) } }

/-- `SourcesLibrary.freeSources`.  When `parameterName` is not registered the
code evaluates a warning whose argument list references the undefined name
`selectionParam`, so Python raises a `NameError` there — before any source is
touched — and the `return []` that follows is unreachable.  The registered path
sets the flag on every selected source and returns the selected sources. -/
def freeSources (lib : SourceLibrary) (declared : List Str)
    (pred : List SelVal → Bool) (parameterName : Str) (fr : Nat) :
    Except AgilepyError (List Source × SourceLibrary) :=
  let sources := selectSourcesWithLambda lib declared pred
  if lib.freeParams.contains parameterName then
    .ok (sources.map (fun s => setFreeAttributeValueOf s parameterName fr),
      { lib with sources := lib.sources.map (fun s =>
          if selectPred lib declared pred s then
            setFreeAttributeValueOf s parameterName fr
          else s) })
  else .error .nameError

/-- Witness input for C6: a source whose only free-able parameter is `Flux`. -/
def src6 : Source :=
  { name := "A".toList
    spectrum := { type := "PowerLaw".toList, parameters :=
      [ { name := "Flux".toList, value := "10".toList,
          min := "1".toList, max := "20".toList, free := 1 } ] }
    spatialModel :=
      { type := "PointSource".toList, free := 1,
        location_limit := "0".toList, parameters := [] }
    multi := none }

def lib6 : SourceLibrary :=
  { sources := [src6]
    selectionMultiParams := []
    freeParams := ["Flux".toList] }

/-!
## `SourcesLibrary.updateMulti`
-/

/-- Modelled from the spec: `Astro.distance` of `agilepy.utils.Utils` (not
under `src/`): the great-circle angular separation, in degrees, between the
galactic positions (l1, b1) and (l2, b2), by the standard spherical-coordinate
angular-separation formula (spec 4.3). -/
noncomputable def Astro.distance (l1 b1 l2 b2 : ℚ) : ℝ :=
  (180 / Real.pi) * Real.arccos
    (Real.sin ((b1 : ℝ) * Real.pi / 180) * Real.sin ((b2 : ℝ) * Real.pi / 180)
      + Real.cos ((b1 : ℝ) * Real.pi / 180)
        * Real.cos ((b2 : ℝ) * Real.pi / 180)
        * Real.cos (((l1 : ℝ) - (l2 : ℝ)) * Real.pi / 180))

/-- The longitude `updateMulti` resolves: the fit result's reported `L` unless
it is the sentinel −1, in which case the initial `start_l` is used. -/
def resolvedL (data : MultiOutput) : ℚ :=
  if data.L = -1 then data.start_l else data.L

/-- The latitude `updateMulti` resolves: the fit result's reported `B` unless
it is the sentinel −1, in which case the initial `start_b` is used. -/
def resolvedB (data : MultiOutput) : ℚ :=
  if data.B = -1 then data.start_b else data.B

/-- `SourcesLibrary.updateMulti`.  The distance function is the imported
collaborator `Astro.distance`, taken as a parameter so that the embedded
operation stays executable.  The Python loop attaches the fit result to each
matched source and then reads that source's GLON/GLAT values into variables
that are immediately overwritten by the fit result's `L`/`B`; the embedding
performs those result-unused reads up front, which coincides with the loop on
every run in which each matched source carries GLON and GLAT — the only runs
the claims concern.  All matched sources share the single fit-result object,
whose resolved position depends only on the fit result itself, so the stored
`Dist` is the same for every match. -/
def updateMulti (dist : ℚ → ℚ → ℚ → ℚ → ℝ) (lib : SourceLibrary)
    (data : MultiOutput) (mapCenterL mapCenterB : ℚ) :
    Except AgilepyError SourceLibrary :=
  if (selectSourcesWithLambda lib ["Name".toList]
      (namePred data.label)).isEmpty then .error .lookupError
  else if (selectSourcesWithLambda lib ["Name".toList]
      (namePred data.label)).all (fun s =>
        (getParamAttributeWhere s.spatialModel.parameters .value
          "GLON".toList).isSome
        && (getParamAttributeWhere s.spatialModel.parameters .value
          "GLAT".toList).isSome) then
    .ok { lib with sources := lib.sources.map (fun s =>
      if selectPred lib ["Name".toList] (namePred data.label) s then
        { s with multi := some { data with Dist := dist (resolvedL data) (resolvedB data) mapCenterL mapCenterB } }
      else s) }
  else .error .encodingError

/-- Witness inputs for C4: a source `U` carrying GLON/GLAT, one fit result
labelled `U` (with sentinel longitude −1) and one labelled `V` (no match). -/
def srcU : Source :=
  { name := "U".toList,
    spectrum := { type := "PowerLaw".toList, parameters := [] },
    spatialModel :=
      { type := "PointSource".toList, free := 0,
        location_limit := "0".toList, parameters :=
          [ { name := "GLON".toList, value := "33".toList,
              min := "-360".toList, max := "360".toList, free := 0 }
          , { name := "GLAT".toList, value := "1".toList,
              min := "-90".toList, max := "90".toList, free := 0 } ] },
    multi := none }

def libU : SourceLibrary :=
  { sources := [srcU],
    selectionMultiParams := [],
    freeParams := [] }

noncomputable def dataU : MultiOutput :=
  { label := "U".toList, L := -1, B := 5, start_l := 33, start_b := 1,
    Dist := 0, attrs := fun _ => 0 }

noncomputable def dataV : MultiOutput :=
  { label := "V".toList, L := 2, B := 3, start_l := 4, start_b := 5,
    Dist := 0, attrs := fun _ => 0 }

/-!
## `SourcesLibrary._convertToAgileFormat`: the fixed text encoding
-/

/-- The flux lookup of `_convertToAgileFormat`:
`[param.value for param in source.spectrum.parameters if param.name == "Flux"]`
followed by `.pop()` — the last match, failing when there is none. -/
def fluxValue (source : Source) : Option Str :=
  ((source.spectrum.parameters.filter
    (fun p => p.name == "Flux".toList)).map (fun p => p.value)).getLast?

/-- Shorthand for `source.spectrum.getParamAttributeWhere(a, "name", nm)`. -/
def specAttr (source : Source) (a : Attr) (nm : String) : Option Str :=
  getParamAttributeWhere source.spectrum.parameters a nm.toList

/-- Shorthand for `source.spatialModel.getParamAttributeWhere(a, "name", nm)`. -/
def spatAttr (source : Source) (a : Attr) (nm : String) : Option Str :=
  getParamAttributeWhere source.spatialModel.parameters a nm.toList

/-- One output line of `_convertToAgileFormat` for one source, terminating
newline included.  Char-list literals such as `['2', ' ']` are the string
pieces the Python code appends (note the double blank produced by the
`" -1 -1"` piece of the PLExpCutoff branch).  `none` models the fatal failure
on a missing referenced parameter (spec 4.4) and on a bitmask digit string
that does not parse in base 2. -/
def convertSourceToAgileFormat (source : Source) : Option Str := do
  let flux ← fluxValue source
  let glon ← spatAttr source .value "GLON"
  let glat ← spatAttr source .value "GLAT"
  let index ←
    if source.spectrum.type == "PLSuperExpCutoff".toList then
      specAttr source .value "Index1"
    else specAttr source .value "Index"
  let ff ← computeFixFlag source
  let famValues ←
    if source.spectrum.type == "PowerLaw".toList then
      some ['0', ' ', '0', ' ', '0', ' ']
    else if source.spectrum.type == "PLExpCutoff".toList then do
      let ce ← specAttr source .value "CutoffEnergy"
      some (['1', ' '] ++ ce ++ [' ', '0', ' '])
    else if source.spectrum.type == "PLSuperExpCutoff".toList then do
      let ce ← specAttr source .value "CutoffEnergy"
      let i2 ← specAttr source .value "Index2"
      some (['2', ' '] ++ ce ++ [' '] ++ i2 ++ [' '])
    else do
      let pe ← specAttr source .value "PivotEnergy"
      let cv ← specAttr source .value "Curvature"
      some (['3', ' '] ++ pe ++ [' '] ++ cv ++ [' '])
  let imin ←
    if source.spectrum.type == "PLSuperExpCutoff".toList then
      specAttr source .min "Index1"
    else specAttr source .min "Index"
  let imax ←
    if source.spectrum.type == "PLSuperExpCutoff".toList then
      specAttr source .max "Index1"
    else specAttr source .max "Index"
  let bounds ←
    if source.spectrum.type == "PowerLaw".toList then
      some ['-', '1', ' ', '-', '1', ' ', '-', '1', ' ', '-', '1']
    else if source.spectrum.type == "PLExpCutoff".toList then do
      let cmin ← specAttr source .min "CutoffEnergy"
      let cmax ← specAttr source .max "CutoffEnergy"
      some (cmin ++ [' '] ++ cmax ++ [' '] ++ [' ', '-', '1', ' ', '-', '1'])
    else if source.spectrum.type == "PLSuperExpCutoff".toList then do
      let cmin ← specAttr source .min "CutoffEnergy"
      let cmax ← specAttr source .max "CutoffEnergy"
      let i2min ← specAttr source .min "Index2"
      let i2max ← specAttr source .max "Index2"
      some (cmin ++ [' '] ++ cmax ++ [' '] ++ i2min ++ [' '] ++ i2max)
    else do
      let pmin ← specAttr source .min "PivotEnergy"
      let pmax ← specAttr source .max "PivotEnergy"
      let cvmin ← specAttr source .min "Curvature"
      let cvmax ← specAttr source .max "Curvature"
      some (pmin ++ [' '] ++ pmax ++ [' '] ++ cvmin ++ [' '] ++ cvmax)
  some (flux ++ [' '] ++ glon ++ [' '] ++ glat ++ [' '] ++ index ++ [' ']
    ++ natDigits ff ++ [' '] ++ ['2', ' '] ++ source.name ++ [' ']
    ++ source.spatialModel.location_limit ++ [' ']
    ++ famValues ++ imin ++ [' '] ++ imax ++ [' '] ++ bounds ++ ['\n'])

/-- `SourcesLibrary._convertToAgileFormat`: the per-source lines concatenated
in catalog order (the `sourceStr` accumulator). -/
def convertToAgileFormat (lib : SourceLibrary) : Option Str :=
  lib.sources.foldlM (fun acc s =>
    (convertSourceToAgileFormat s).map (fun line => acc ++ line)) []

/-- C3 witness input: a PLSuperExpCutoff source with all referenced
parameters present. -/
def src3 : Source :=
  { name := "src3".toList
    spectrum :=
      { type := "PLSuperExpCutoff".toList
        parameters :=
          [ { name := "Flux".toList, value := "5".toList, min := "1".toList,
              max := "9".toList, free := 1 }
          , { name := "Index1".toList, value := "2".toList,
              min := "1".toList, max := "3".toList, free := 1 }
          , { name := "Index2".toList, value := "1".toList,
              min := "0".toList, max := "4".toList, free := 1 }
          , { name := "CutoffEnergy".toList, value := "3000".toList,
              min := "20".toList, max := "8000".toList, free := 0 } ] }
    spatialModel :=
      { type := "PointSource".toList, free := 0,
        location_limit := "2".toList, parameters :=
          [ { name := "GLON".toList, value := "30".toList,
              min := "-360".toList, max := "360".toList, free := 0 }
          , { name := "GLAT".toList, value := "4".toList,
              min := "-90".toList, max := "90".toList, free := 0 } ] }
    multi := none }

/-!
## `SourcesLibrary.parseSourceFile`
-/

/-- One flattened token of the fitter-output record: a stripped string, or a
comma/range-split list of strings. -/
inductive Item
  | str (s : Str)
  | lst (l : List Str)
deriving DecidableEq

/-- Python whitespace, for `str.strip()`. -/
def isWS (c : Char) : Bool := c = ' ' || c = '\n' || c = '\t' || c = '\r'

/-- Python `s.strip()`. -/
def strip (s : Str) : Str :=
  ((s.dropWhile isWS).reverse.dropWhile isWS).reverse

/-- Python `s.split(sep)` for a one-character separator: split at every
occurrence, keeping empty pieces (the result is never empty). -/
def splitChar (sep : Char) : Str → List Str
  | [] => [[]]
  | c :: cs =>
      if c = sep then [] :: splitChar sep cs
      else
        match splitChar sep cs with
        | [] => [[c]]
        | h :: t => (c :: h) :: t

/-- Python `s.split("..")`, the two-character range separator of line 13: a
greedy left-to-right scan. -/
def splitDots : Str → List Str
  | [] => [[]]
  | '.' :: '.' :: cs => [] :: splitDots cs
  | c :: cs =>
      match splitDots cs with
      | [] => [[c]]
      | h :: t => (c :: h) :: t

/-- The tokenization every line gets first: split on blanks, drop empty pieces,
strip each piece (`parseSourceFile`, the two lines after `line.split(" ")`). -/
def baseValues (line : Str) : List Str :=
  ((splitChar ' ' line).filter (fun v => !v.isEmpty)).map strip

/-- The final `values = [v for v in values if v != '']`: empty strings are
dropped, lists always kept (a list never equals the empty string). -/
def itemNonempty : Item → Bool
  | .str s => !s.isEmpty
  | .lst _ => true

/-- The decoration filter of line 0: drop the tokens `[`, `]` and `,`. -/
def decorFilter (vs : List Str) : List Str :=
  vs.filter (fun v =>
    !(v == "[".toList) && !(v == "]".toList) && !(v == ",".toList))

/-- The tokens line 0 contributes: decoration-stripped, empties dropped. -/
def line0Tokens (line : Str) : List Str :=
  (decorFilter (baseValues line)).filter (fun v => !v.isEmpty)

/-- Position-dependent processing of one non-comment line of the fitter
output, before the final empty-string filter.  `none` models the Python
`IndexError` raised when a required piece is missing: the last base token on
line 5, the second space-separated field on lines 8–11 and 13, or the second
`..`-component of a range on line 13. -/
def processLineCore (i : Nat) (line : Str) : Option (List Item) :=
  if i = 0 then some ((decorFilter (baseValues line)).map .str)
  else if i = 5 then do
    let last ← (baseValues line).getLast?
    some (((baseValues line).dropLast).map .str ++ [.lst (splitChar ',' last)])
  else if i = 8 ∨ i = 9 ∨ i = 10 ∨ i = 11 then do
    let p1 ← (splitChar ' ' line)[1]?
    some [ .lst (splitChar ',' ((splitChar ' ' line).headD []))
         , .lst ((splitChar ',' p1).map strip) ]
  else if i = 13 then do
    let emaxs ← (splitChar ',' ((splitChar ' ' line).headD [])).mapM
      (fun e => (splitDots e)[1]?)
    let p1 ← (splitChar ' ' line)[1]?
    let fovmax ← (splitChar ',' p1).mapM (fun e => (splitDots e)[1]?)
    some ([ .lst ((splitChar ',' ((splitChar ' ' line).headD [])).map
             (fun e => (splitDots e).headD []))
         , .lst emaxs
         , .lst ((splitChar ',' p1).map (fun e => (splitDots e).headD []))
         , .lst fovmax ]
      ++ ((baseValues line).drop ((baseValues line).length - 5)).map .str)
  else some ((baseValues line).map .str)

/-- One line's final token list: the position-dependent processing followed by
the empty-string filter. -/
def processLine (i : Nat) (line : Str) : Except AgilepyError (List Item) :=
  match processLineCore i line with
  | none => .error .indexError
  | some vs => .ok (vs.filter itemNonempty)

/-- `allValues`: process the body lines in order, flattening the tokens. -/
def processBody : Nat → List Str → Except AgilepyError (List Item)
  | _, [] => .ok []
  | i, l :: ls =>
      match processLine i l with
      | .error e => .error e
      | .ok vs =>
          match processBody (i + 1) ls with
          | .error e => .error e
          | .ok rest => .ok (vs ++ rest)

/-- `SourcesLibrary.parseSourceFile`, on the list of lines read from the file:
lines beginning with `!` are discarded; exactly 17 lines must remain, else the
fatal format error (`critical` log + `exit(1)`); the remaining lines are
tokenized position-dependently and flattened in line order into the positional
argument list of the returned `MultiOutput` record — field 0 of the record is
the first flattened token.  (Python's `line[0]` presumes each line non-empty;
lines produced by `readlines()` always are.) -/
def parseSourceFile (lines : List Str) : Except AgilepyError (List Item) :=
  if (lines.filter (fun l => !(l.head? == some '!'))).length ≠ 17 then
    .error .formatError
  else processBody 0 (lines.filter (fun l => !(l.head? == some '!')))

/-- C5 counterexample input: 17 non-comment lines whose line 8 has no second
space-separated field, so `line.split(" ")[1]` raises an `IndexError` — the
parse does not succeed even though exactly 17 lines remain. -/
def badLines : List Str :=
  [ "[ 7 ]\n", "1\n", "1\n", "1\n", "1\n", "1\n", "1\n", "1\n",
    "x\n",
    "1,2 3,4\n", "1,2 3,4\n", "1,2 3,4\n",
    "1\n",
    "1..2 3..4\n",
    "1\n", "1\n", "1\n" ].map String.toList

/-- C5 witness input: 17 well-formed lines. -/
def goodLines : List Str :=
  [ "[ 7 ]\n", "1\n", "1\n", "1\n", "1\n", "1\n", "1\n", "1\n",
    "1,2 3,4\n", "1,2 3,4\n", "1,2 3,4\n", "1,2 3,4\n",
    "1\n",
    "1..2 3..4\n",
    "1\n", "1\n", "1\n" ].map String.toList

/-!
## `Parameters` (`src/agilepy/utils/Parameters.py`)
-/

/-- Python `int()` on a rational: truncation toward zero. -/
def truncToInt (q : ℚ) : Int :=
  if 0 ≤ q then Rat.floor q else Rat.ceil q

namespace Parameters

/-- The fixed energy-bin table of `Parameters.energybins` (28 entries). -/
def energybins : List (List Int) :=
  [ [10000, 50000], [1000, 3000], [1000, 50000], [100, 1000], [100, 10000],
    [100, 200], [100, 300], [100, 400], [100, 50000], [200, 400],
    [200, 50000], [3000, 10000], [3000, 50000], [300, 1000], [300, 10000],
    [300, 3000], [300, 50000], [30, 100], [30, 1000], [30, 400], [30, 50],
    [30, 50000], [400, 1000], [400, 10000], [400, 3000], [400, 50000],
    [50, 100], [50, 400] ]

/-- `Parameters.checkEnergyBin`: coerce each element to an integer and return
whether the coerced bin is a member of the table. -/
def checkEnergyBin (energyBin : List ℚ) : Bool :=
  if energyBin.map truncToInt ∈ energybins then true else false

end Parameters

/-!
## Lemmas and claim theorems
-/

lemma wordsAux_nonspace_chunk (w : Str) (hw : ∀ c ∈ w, isSpaceChar c = false) :
    ∀ acc cs, wordsAux (w ++ cs) acc = wordsAux cs (w.reverse ++ acc) := by
  induction w with
  | nil => intro acc cs; simp
  | cons c w ih =>
      intro acc cs
      have hc : isSpaceChar c = false := hw c (by simp)
      have hw' : ∀ x ∈ w, isSpaceChar x = false := fun x hx => hw x (by simp [hx])
      simp [wordsAux, hc, ih hw', List.append_assoc]

lemma isWordB_iff (w : Str) :
    isWordB w = true ↔ w ≠ [] ∧ ∀ c ∈ w, isSpaceChar c = false := by
  simp [isWordB, List.isEmpty_iff, List.all_eq_true]

/-- Tokenizing a word followed by a separator yields the word as a field. -/
lemma words_flush (w : Str) (hw : isWordB w = true) (c : Char)
    (hc : isSpaceChar c = true) (cs : Str) :
    wordsAux (w ++ c :: cs) [] = w :: wordsAux cs [] := by
  obtain ⟨hne, hall⟩ := (isWordB_iff w).mp hw
  rw [wordsAux_nonspace_chunk w hall [] (c :: cs)]
  have hrev : (w.reverse ++ []).isEmpty = false := by
    simp [List.isEmpty_iff, hne]
  simp [wordsAux, hc, List.isEmpty_iff, hne]

/-- A leading separator is skipped. -/
lemma words_sep (c : Char) (hc : isSpaceChar c = true) (cs : Str) :
    wordsAux (c :: cs) [] = wordsAux cs [] := by
  simp [wordsAux, hc]

lemma words_nil : wordsAux ([] : Str) [] = [] := rfl

/-- One-character literal field followed by a separator. -/
lemma words_flush_cons (c : Char) (hc : isSpaceChar c = false) (c' : Char)
    (hc' : isSpaceChar c' = true) (cs : Str) :
    wordsAux (c :: c' :: cs) [] = [c] :: wordsAux cs [] := by
  simp [wordsAux, hc, hc']

/-- Two-character literal field followed by a separator. -/
lemma words_flush_cons2 (c1 c2 : Char) (h1 : isSpaceChar c1 = false)
    (h2 : isSpaceChar c2 = false) (sep : Char) (hs : isSpaceChar sep = true)
    (cs : Str) :
    wordsAux (c1 :: c2 :: sep :: cs) [] = [c1, c2] :: wordsAux cs [] := by
  simp [wordsAux, h1, h2, hs]

lemma natDigitsAux_length (fuel n : Nat) :
    ∀ acc, acc.length ≤ (natDigitsAux fuel n acc).length := by
  induction fuel generalizing n with
  | zero => intro acc; simp [natDigitsAux]
  | succ fuel ih =>
      intro acc
      unfold natDigitsAux
      by_cases h : n / 10 = 0
      · simp [h]
      · simp only [h, if_false]
        calc acc.length ≤ (Nat.digitChar (n % 10) :: acc).length := by simp
          _ ≤ _ := ih (n / 10) _

lemma natDigitsAux_mem (fuel n : Nat) :
    ∀ acc c, c ∈ natDigitsAux fuel n acc →
      c ∈ acc ∨ ∃ m, c = Nat.digitChar (m % 10) := by
  induction fuel generalizing n with
  | zero => intro acc c hc; exact Or.inl hc
  | succ fuel ih =>
      intro acc c hc
      unfold natDigitsAux at hc
      by_cases h : n / 10 = 0
      · simp only [h, if_true] at hc
        rcases List.mem_cons.mp hc with h1 | h1
        · exact Or.inr ⟨n, h1⟩
        · exact Or.inl h1
      · simp only [h, if_false] at hc
        rcases ih (n / 10) _ c hc with h1 | h1
        · rcases List.mem_cons.mp h1 with h2 | h2
          · exact Or.inr ⟨n, h2⟩
          · exact Or.inl h2
        · exact Or.inr h1

lemma natDigits_word (n : Nat) : isWordB (natDigits n) = true := by
  rw [isWordB_iff]
  constructor
  · intro h
    have h1 := natDigitsAux_length n (n / 10) [Nat.digitChar (n % 10)]
    have h2 : natDigits n = [] → False := by
      intro he
      unfold natDigits natDigitsAux at he
      by_cases hd : n / 10 = 0
      · simp [hd] at he
      · simp only [hd, if_false] at he
        have := natDigitsAux_length n (n / 10) [Nat.digitChar (n % 10)]
        rw [he] at this
        simp at this
    exact h2 h
  · intro c hc
    have hd : ∀ k, k < 10 → isSpaceChar (Nat.digitChar k) = false := by decide
    rcases natDigitsAux_mem (n + 1) n [] c hc with h1 | ⟨m, rfl⟩
    · simp at h1
    · exact hd (m % 10) (Nat.mod_lt m (by norm_num))

/-- Claim C1: for a source whose Flux parameter is free, the emitted bitmask is
the base-2 parse of the single-character flag digits concatenated in the claimed
order — the 9-digit sequence `[spatialFree, Curvature.free, Index2.free,
CutoffEnergy.free, PivotEnergy.free, Index.free, Index1.free, "0", Flux.free]`
when the spatial model's `free` field equals 2, and the 8-digit sequence
`[Curvature.free, Index2.free, CutoffEnergy.free, PivotEnergy.free, Index.free,
Index1.free, spatialFree, Flux.free]` otherwise.  (When `free = 2` the leading
digit is `2`, so the base-2 parse — on both sides of the equation — fails.) -/
theorem c1_computeFixFlag_bitmask (s : Source) (c i2 ce pe i i1 f : Nat)
    (hc : getFreeAttributeValueOf s.spectrum.parameters "Curvature".toList = some c)
    (hi2 : getFreeAttributeValueOf s.spectrum.parameters "Index2".toList = some i2)
    (hce : getFreeAttributeValueOf s.spectrum.parameters "CutoffEnergy".toList = some ce)
    (hpe : getFreeAttributeValueOf s.spectrum.parameters "PivotEnergy".toList = some pe)
    (hi : getFreeAttributeValueOf s.spectrum.parameters "Index".toList = some i)
    (hi1 : getFreeAttributeValueOf s.spectrum.parameters "Index1".toList = some i1)
    (hf : getFreeAttributeValueOf s.spectrum.parameters "Flux".toList = some f)
    (hfree : f ≠ 0) :
    computeFixFlag s = parseBin (
      if s.spatialModel.free = 2 then
        natDigits s.spatialModel.free ++ natDigits c ++ natDigits i2 ++
        natDigits ce ++ natDigits pe ++ natDigits i ++ natDigits i1 ++
        ['0'] ++ natDigits f
      else
        natDigits c ++ natDigits i2 ++ natDigits ce ++ natDigits pe ++
        natDigits i ++ natDigits i1 ++ natDigits s.spatialModel.free ++
        natDigits f) := by
  have h0 : ¬ getFreeAttributeValueOf s.spectrum.parameters "Flux".toList
      = some 0 := by
    rw [hf]
    simp [hfree]
  unfold computeFixFlag
  rw [if_neg h0]
  simp only [freeDigits, hc, hi2, hce, hpe, hi, hi1, hf]

theorem c1_witness :
    computeFixFlag src1 = parseBin (
      natDigits 0 ++ natDigits 0 ++ natDigits 0 ++ natDigits 0 ++
      natDigits 1 ++ natDigits 0 ++ natDigits src1.spatialModel.free ++
      natDigits 1)
    ∧ computeFixFlag src1 = some 9 := by
  constructor
  · have h := c1_computeFixFlag_bitmask src1 0 0 0 0 1 0 1 (by decide)
      (by decide) (by decide) (by decide) (by decide) (by decide) (by decide)
      (by decide)
    simpa [src1] using h
  · decide

/-- Claim C2: when the Flux parameter's `free` flag equals 0 the bitmask
computation is skipped and 0 is emitted, whatever the other flags and the
spatial model's `free` field are. -/
theorem c2_computeFixFlag_fluxFixed (s : Source)
    (h : getFreeAttributeValueOf s.spectrum.parameters "Flux".toList
      = some 0) :
    computeFixFlag s = some 0 := by
  unfold computeFixFlag
  rw [if_pos h]

theorem c2_witness :
    getFreeAttributeValueOf src2.spectrum.parameters "Flux".toList = some 0
    ∧ computeFixFlag src2 = some 0 :=
  ⟨by decide, c2_computeFixFlag_fluxFixed src2 (by decide)⟩

lemma select_eq_filter (lib : SourceLibrary) (declared : List Str)
    (pred : List SelVal → Bool) :
    selectSourcesWithLambda lib declared pred
      = lib.sources.filter (selectPred lib declared pred) := by
  unfold selectSourcesWithLambda selectPred
  by_cases hv : (validateSelectionParams lib declared).isEmpty
  · simp [hv]
  · simp [hv]

lemma validate_name (lib : SourceLibrary) :
    validateSelectionParams lib ["Name".toList] = ["Name".toList] := by
  simp [validateSelectionParams, registryOf]

lemma needMulti_name (lib : SourceLibrary)
    (hname : "Name".toList ∉ lib.selectionMultiParams) :
    needMultiParams lib ["Name".toList] = false := by
  simp only [needMultiParams, List.any_cons, List.any_nil, Bool.or_false,
    decide_eq_false_iff_not]
  exact hname

lemma selectPred_name (lib : SourceLibrary) (x : Str)
    (hname : "Name".toList ∉ lib.selectionMultiParams) (s : Source) :
    selectPred lib ["Name".toList] (namePred x) s = (s.name == x) := by
  have hneed : needMultiParams lib ["Name".toList] = false :=
    needMulti_name lib hname
  unfold selectPred
  rw [validate_name]
  unfold eligibleSource
  rw [hneed]
  simp [resolveParam, namePred]

lemma select_by_name (lib : SourceLibrary) (x : Str)
    (hname : "Name".toList ∉ lib.selectionMultiParams) :
    selectSourcesWithLambda lib ["Name".toList] (namePred x)
      = lib.sources.filter (fun s => s.name == x) := by
  rw [select_eq_filter]
  exact List.filter_congr (fun s _ => selectPred_name lib x hname s)

/-- Claim C7: the selection engine validates the declared names against the
registry, dropping unregistered ones; with no validated name it returns `[]`
without any predicate invocation; and every invocation binds exactly the
validated (hence registered) names. -/
theorem c7_selection_safety (lib : SourceLibrary) (declared : List Str)
    (pred : List SelVal → Bool) :
    validateSelectionParams lib declared
      = declared.filter (fun p => decide (p ∈ registryOf lib))
    ∧ (validateSelectionParams lib declared = [] →
        selectSourcesWithLambda lib declared pred = []
        ∧ selectInvocations lib declared = [])
    ∧ (∀ inv ∈ selectInvocations lib declared,
        inv.map Prod.fst = validateSelectionParams lib declared
        ∧ ∀ pv ∈ inv, pv.1 ∈ registryOf lib)
    ∧ (validateSelectionParams lib declared ≠ [] →
        selectSourcesWithLambda lib declared pred
          = (lib.sources.filter
              (eligibleSource lib (validateSelectionParams lib declared))).filter
              (fun s => pred ((validateSelectionParams lib declared).map
                (fun p => resolveParam s p)))) := by
  refine ⟨rfl, ?_, ?_, ?_⟩
  · intro h
    constructor
    · simp [selectSourcesWithLambda, h]
    · simp [selectInvocations, h]
  · intro inv hinv
    unfold selectInvocations at hinv
    cases hv : (validateSelectionParams lib declared).isEmpty with
    | true => rw [hv] at hinv; simp at hinv
    | false =>
        rw [hv] at hinv
        simp only [Bool.false_eq_true, if_false, List.mem_map] at hinv
        obtain ⟨s, hs, rfl⟩ := hinv
        constructor
        · have hid : ∀ a ∈ validateSelectionParams lib declared,
              (Prod.fst ∘ fun p => (p, resolveParam s p)) a = id a := by
            intro a _
            rfl
          rw [List.map_map, List.map_congr_left hid, List.map_id]
        · intro pv hpv
          simp only [List.mem_map] at hpv
          obtain ⟨p, hp, rfl⟩ := hpv
          have hdec := List.of_mem_filter hp
          exact of_decide_eq_true hdec
  · intro h
    have hv : (validateSelectionParams lib declared).isEmpty = false := by
      simp [List.isEmpty_iff, h]
    rw [select_eq_filter, List.filter_filter]
    apply List.filter_congr
    intro s _
    unfold selectPred
    rw [hv]
    simp [Bool.and_comm]

theorem c7_witness :
    selectSourcesWithLambda lib7 ["Bogus".toList] (fun _ => true) = []
    ∧ selectInvocations lib7 ["Bogus".toList] = [] :=
  (c7_selection_safety lib7 ["Bogus".toList] (fun _ => true)).2.1 rfl

/-- Claim C8: selection by `Name == x` returns exactly the sources named `x`,
in catalog order; every selection result is a sublist of the catalog (order
preserved); sources without a fit result are skipped — not an error — whenever
a validated name requires one; and the predicate is invoked at most once per
source. -/
theorem c8_select_name (lib : SourceLibrary) (x : Str)
    (hname : "Name".toList ∉ lib.selectionMultiParams) :
    selectSourcesWithLambda lib ["Name".toList] (namePred x)
      = lib.sources.filter (fun s => s.name == x)
    ∧ (∀ declared pred,
        (selectSourcesWithLambda lib declared pred).Sublist lib.sources)
    ∧ (∀ declared pred s, s ∈ selectSourcesWithLambda lib declared pred →
        needMultiParams lib (validateSelectionParams lib declared) = true →
        s.multi.isSome = true)
    ∧ (∀ declared,
        (selectInvocations lib declared).length ≤ lib.sources.length) := by
  refine ⟨select_by_name lib x hname, ?_, ?_, ?_⟩
  · intro declared pred
    rw [select_eq_filter]
    exact List.filter_sublist _
  · intro declared pred s hs hneed
    rw [select_eq_filter] at hs
    have hp := List.of_mem_filter hs
    unfold selectPred at hp
    simp only [Bool.and_eq_true] at hp
    have helig := hp.2.1
    unfold eligibleSource at helig
    rw [hneed] at helig
    cases hm : s.multi with
    | none => rw [hm] at helig; simp at helig
    | some m => simp [hm]
  · intro declared
    unfold selectInvocations
    cases hv : (validateSelectionParams lib declared).isEmpty with
    | true => simp
    | false =>
        simp only [Bool.false_eq_true, if_false, List.length_map]
        exact List.length_filter_le _ _

theorem c8_witness :
    selectSourcesWithLambda lib8 ["Name".toList] (namePred ("A".toList))
      = lib8.sources.filter (fun s => s.name == "A".toList) :=
  (c8_select_name lib8 ("A".toList)
    (by intro h; simp [lib8] at h)).1

/-- Claim C9: `deleteSources` returns exactly the selected sources; the catalog
afterwards holds exactly the original occurrences minus the selected ones, in
their original relative order; a non-selected source — even one sharing a
selected source's name — is kept; and a predicate matching nothing returns `[]`
and leaves the catalog unchanged. -/
theorem c9_deleteSources_spec (lib : SourceLibrary) (declared : List Str)
    (pred : List SelVal → Bool) :
    (deleteSources lib declared pred).1
      = lib.sources.filter (selectPred lib declared pred)
    ∧ (deleteSources lib declared pred).2.sources
      = lib.sources.filter (fun s => !selectPred lib declared pred s)
    ∧ ((deleteSources lib declared pred).2.sources).Sublist lib.sources
    ∧ (∀ s ∈ lib.sources, selectPred lib declared pred s = false →
        s ∈ (deleteSources lib declared pred).2.sources)
    ∧ ((∀ s ∈ lib.sources, selectPred lib declared pred s = false) →
        (deleteSources lib declared pred).1 = []
        ∧ (deleteSources lib declared pred).2.sources = lib.sources) := by
  refine ⟨select_eq_filter lib declared pred, rfl, List.filter_sublist _, ?_, ?_⟩
  · intro s hs hsel
    apply List.mem_filter.mpr
    exact ⟨hs, by simp [hsel]⟩
  · intro h
    constructor
    · show selectSourcesWithLambda lib declared pred = []
      rw [select_eq_filter]
      apply List.filter_eq_nil_iff.mpr
      intro s hs
      simp [h s hs]
    · show lib.sources.filter _ = lib.sources
      apply List.filter_eq_self.mpr
      intro s hs
      simp [h s hs]

theorem c9_witness :
    (deleteSources lib9 ["Name".toList] (namePred ("ZZZ".toList))).1 = []
    ∧ (deleteSources lib9 ["Name".toList]
        (namePred ("ZZZ".toList))).2.sources = lib9.sources :=
  (c9_deleteSources_spec lib9 ["Name".toList]
    (namePred ("ZZZ".toList))).2.2.2.2 (by
      intro s hs
      have hall : lib9.sources.all
          (fun s => !selectPred lib9 ["Name".toList]
            (namePred ("ZZZ".toList)) s) = true := rfl
      have hb := List.all_eq_true.mp hall s hs
      simpa using hb)

/-- Claim C6 (code bug): a free/fixed request on an unregistered parameter name
does fail fatally before any source is touched, but with a `NameError` — the
warning call references the undefined name `selectionParam`
(`SourcesLibrary.py`, `freeSources`), making the warn-and-return-`[]` path
unreachable — not with the `ConfigurationError` the claim states.  The embedded
code evaluated at the failing input, plus the registered-name path on the same
catalog for contrast: -/
theorem c6_freeSources_unregistered_crash :
    freeSources lib6 ["Name".toList] (namePred ("A".toList))
      "Curvature".toList 1 = .error .nameError
    ∧ freeSources lib6 ["Name".toList] (namePred ("A".toList))
        "Flux".toList 0
      = .ok ([setFreeAttributeValueOf src6 "Flux".toList 0],
          { lib6 with sources :=
              [setFreeAttributeValueOf src6 "Flux".toList 0] }) :=
  ⟨rfl, by rfl⟩

/-- Claim C4: `updateMulti` fails fatally with the lookup error when no source
bears the fit result's label; otherwise every matching source receives the fit
result as its `multi`, with `Dist` set to the great-circle angular distance
between the map center and the resolved position — the fit result's reported
longitude/latitude, except that a sentinel value −1 is replaced by the initial
(start) coordinate. -/
theorem c4_updateMulti_spec (lib : SourceLibrary) (data : MultiOutput)
    (mapCenterL mapCenterB : ℚ)
    (hname : "Name".toList ∉ lib.selectionMultiParams) :
    ((∀ s ∈ lib.sources, (s.name == data.label) = false) →
      updateMulti Astro.distance lib data mapCenterL mapCenterB
        = .error .lookupError)
    ∧ ((∃ s ∈ lib.sources, s.name = data.label) →
       (∀ s ∈ lib.sources, s.name = data.label →
          (getParamAttributeWhere s.spatialModel.parameters .value
            "GLON".toList).isSome = true
          ∧ (getParamAttributeWhere s.spatialModel.parameters .value
            "GLAT".toList).isSome = true) →
       updateMulti Astro.distance lib data mapCenterL mapCenterB
         = .ok { lib with sources := lib.sources.map (fun s =>
             if s.name == data.label then
               { s with multi := some { data with Dist := Astro.distance (resolvedL data) (resolvedB data) mapCenterL mapCenterB } }
             else s) }) := by
  constructor
  · intro h
    unfold updateMulti
    rw [select_by_name lib data.label hname]
    rw [show lib.sources.filter (fun s => s.name == data.label) = [] from
      List.filter_eq_nil_iff.mpr (by intro s hs; simp [h s hs])]
    rfl
  · intro hex hglon
    obtain ⟨s0, hs0, hlab⟩ := hex
    unfold updateMulti
    rw [select_by_name lib data.label hname]
    have hmem : s0 ∈ lib.sources.filter (fun s => s.name == data.label) :=
      List.mem_filter.mpr ⟨hs0, by simp [hlab]⟩
    have hne : (lib.sources.filter
        (fun s => s.name == data.label)).isEmpty = false := by
      cases hfe : lib.sources.filter (fun s => s.name == data.label) with
      | nil =>
          rw [hfe] at hmem
          exact absurd hmem (List.not_mem_nil s0)
      | cons a l => rfl
    have hall : (lib.sources.filter (fun s => s.name == data.label)).all
        (fun s =>
          (getParamAttributeWhere s.spatialModel.parameters .value
            "GLON".toList).isSome
          && (getParamAttributeWhere s.spatialModel.parameters .value
            "GLAT".toList).isSome) = true := by
      rw [List.all_eq_true]
      intro s hs
      have hm := List.mem_filter.mp hs
      have hlab' : s.name = data.label := by simpa using hm.2
      obtain ⟨h1, h2⟩ := hglon s hm.1 hlab'
      simp only [Bool.and_eq_true]
      constructor
      · simpa using h1
      · simpa using h2
    rw [hne, hall]
    simp only [Bool.false_eq_true, if_false, eq_self_iff_true, if_true]
    congr 1
    congr 1
    apply List.map_congr_left
    intro s _
    rw [selectPred_name lib data.label hname s]

theorem c4_witness :
    updateMulti Astro.distance libU dataV 0 0 = .error .lookupError
    ∧ updateMulti Astro.distance libU dataU 0 0
      = .ok { libU with sources := libU.sources.map (fun s =>
          if s.name == dataU.label then
            { s with multi := some { dataU with Dist := Astro.distance (resolvedL dataU) (resolvedB dataU) 0 0 } }
          else s) } := by
  constructor
  · exact (c4_updateMulti_spec libU dataV 0 0 (by simp [libU])).1
      (by
        intro s hs
        rw [show libU.sources = [srcU] from rfl] at hs
        rw [List.mem_singleton] at hs
        subst hs
        rfl)
  · exact (c4_updateMulti_spec libU dataU 0 0 (by simp [libU])).2
      ⟨srcU, by simp [libU], rfl⟩
      (by
        intro s hs _
        rw [show libU.sources = [srcU] from rfl] at hs
        rw [List.mem_singleton] at hs
        subst hs
        exact ⟨rfl, rfl⟩)

/-- Claim C3: splitting an emitted line on whitespace yields exactly the
claimed fields, in order: flux value; GLON; GLAT; the spectral index value
(`Index1` for a PLSuperExpCutoff spectrum, `Index` otherwise); the packed
bitmask; the constant `2`; the source name; the spatial location-limit string;
the model-family discriminator (0 = PowerLaw, 1 = PLExpCutoff,
2 = PLSuperExpCutoff, 3 = other curved models) with its associated value slots
(`0` placeholders where the family has no value); the min and max bounds of the
index field used above; and the family-specific bounds with sentinel `-1` for
every bound not applicable — in particular a PowerLaw line ends
`-1 -1 -1 -1`.  One conjunct per model family; the hypotheses supply the
parameter lookups and require each looked-up string to be a whitespace-free
non-empty field. -/
theorem c3_convertToAgileFormat_fields :
    (∀ (s : Source) (flux glon glat idx imin imax : Str) (ff : Nat)
      (line : Str),
      s.spectrum.type = "PowerLaw".toList →
      fluxValue s = some flux → isWordB flux = true →
      spatAttr s .value "GLON" = some glon → isWordB glon = true →
      spatAttr s .value "GLAT" = some glat → isWordB glat = true →
      specAttr s .value "Index" = some idx → isWordB idx = true →
      computeFixFlag s = some ff →
      specAttr s .min "Index" = some imin → isWordB imin = true →
      specAttr s .max "Index" = some imax → isWordB imax = true →
      isWordB s.name = true → isWordB s.spatialModel.location_limit = true →
      convertSourceToAgileFormat s = some line →
      words line = [flux, glon, glat, idx, natDigits ff, ['2'], s.name,
        s.spatialModel.location_limit, ['0'], ['0'], ['0'], imin, imax,
        ['-', '1'], ['-', '1'], ['-', '1'], ['-', '1']])
    ∧ (∀ (s : Source) (flux glon glat idx imin imax ce cmin cmax : Str)
      (ff : Nat) (line : Str),
      s.spectrum.type = "PLExpCutoff".toList →
      fluxValue s = some flux → isWordB flux = true →
      spatAttr s .value "GLON" = some glon → isWordB glon = true →
      spatAttr s .value "GLAT" = some glat → isWordB glat = true →
      specAttr s .value "Index" = some idx → isWordB idx = true →
      computeFixFlag s = some ff →
      specAttr s .value "CutoffEnergy" = some ce → isWordB ce = true →
      specAttr s .min "Index" = some imin → isWordB imin = true →
      specAttr s .max "Index" = some imax → isWordB imax = true →
      specAttr s .min "CutoffEnergy" = some cmin → isWordB cmin = true →
      specAttr s .max "CutoffEnergy" = some cmax → isWordB cmax = true →
      isWordB s.name = true → isWordB s.spatialModel.location_limit = true →
      convertSourceToAgileFormat s = some line →
      words line = [flux, glon, glat, idx, natDigits ff, ['2'], s.name,
        s.spatialModel.location_limit, ['1'], ce, ['0'], imin, imax,
        cmin, cmax, ['-', '1'], ['-', '1']])
    ∧ (∀ (s : Source) (flux glon glat idx1 i1min i1max ce i2 cmin cmax i2min
      i2max : Str) (ff : Nat) (line : Str),
      s.spectrum.type = "PLSuperExpCutoff".toList →
      fluxValue s = some flux → isWordB flux = true →
      spatAttr s .value "GLON" = some glon → isWordB glon = true →
      spatAttr s .value "GLAT" = some glat → isWordB glat = true →
      specAttr s .value "Index1" = some idx1 → isWordB idx1 = true →
      computeFixFlag s = some ff →
      specAttr s .value "CutoffEnergy" = some ce → isWordB ce = true →
      specAttr s .value "Index2" = some i2 → isWordB i2 = true →
      specAttr s .min "Index1" = some i1min → isWordB i1min = true →
      specAttr s .max "Index1" = some i1max → isWordB i1max = true →
      specAttr s .min "CutoffEnergy" = some cmin → isWordB cmin = true →
      specAttr s .max "CutoffEnergy" = some cmax → isWordB cmax = true →
      specAttr s .min "Index2" = some i2min → isWordB i2min = true →
      specAttr s .max "Index2" = some i2max → isWordB i2max = true →
      isWordB s.name = true → isWordB s.spatialModel.location_limit = true →
      convertSourceToAgileFormat s = some line →
      words line = [flux, glon, glat, idx1, natDigits ff, ['2'], s.name,
        s.spatialModel.location_limit, ['2'], ce, i2, i1min, i1max,
        cmin, cmax, i2min, i2max])
    ∧ (∀ (s : Source) (flux glon glat idx imin imax pe cv pmin pmax cvmin
      cvmax : Str) (ff : Nat) (line : Str),
      (s.spectrum.type == "PowerLaw".toList) = false →
      (s.spectrum.type == "PLExpCutoff".toList) = false →
      (s.spectrum.type == "PLSuperExpCutoff".toList) = false →
      fluxValue s = some flux → isWordB flux = true →
      spatAttr s .value "GLON" = some glon → isWordB glon = true →
      spatAttr s .value "GLAT" = some glat → isWordB glat = true →
      specAttr s .value "Index" = some idx → isWordB idx = true →
      computeFixFlag s = some ff →
      specAttr s .value "PivotEnergy" = some pe → isWordB pe = true →
      specAttr s .value "Curvature" = some cv → isWordB cv = true →
      specAttr s .min "Index" = some imin → isWordB imin = true →
      specAttr s .max "Index" = some imax → isWordB imax = true →
      specAttr s .min "PivotEnergy" = some pmin → isWordB pmin = true →
      specAttr s .max "PivotEnergy" = some pmax → isWordB pmax = true →
      specAttr s .min "Curvature" = some cvmin → isWordB cvmin = true →
      specAttr s .max "Curvature" = some cvmax → isWordB cvmax = true →
      isWordB s.name = true → isWordB s.spatialModel.location_limit = true →
      convertSourceToAgileFormat s = some line →
      words line = [flux, glon, glat, idx, natDigits ff, ['2'], s.name,
        s.spatialModel.location_limit, ['3'], pe, cv, imin, imax,
        pmin, pmax, cvmin, cvmax]) := by
  refine ⟨?_, ?_, ?_, ?_⟩
  · intro s flux glon glat idx imin imax ff line hty hflux hwflux hglon
      hwglon hglat hwglat hidx hwidx hff himin hwimin himax hwimax hwname
      hwloc hline
    have hc1 : (s.spectrum.type == "PLSuperExpCutoff".toList) = false := by
      rw [hty]; rfl
    have hc2 : (s.spectrum.type == "PowerLaw".toList) = true := by
      rw [hty]; rfl
    simp only [convertSourceToAgileFormat, hflux, hglon, hglat, hc1, hc2,
      Bool.false_eq_true, if_false, if_true, hidx, hff, himin, himax,
      Option.bind_eq_bind', Option.some_bind', Option.some.injEq] at hline
    subst hline
    unfold words
    simp only [List.append_assoc, List.cons_append, List.nil_append]
    rw [words_flush flux hwflux ' ' rfl,
        words_flush glon hwglon ' ' rfl,
        words_flush glat hwglat ' ' rfl,
        words_flush idx hwidx ' ' rfl,
        words_flush (natDigits ff) (natDigits_word ff) ' ' rfl,
        words_flush_cons '2' rfl ' ' rfl,
        words_flush s.name hwname ' ' rfl,
        words_flush s.spatialModel.location_limit hwloc ' ' rfl,
        words_flush_cons '0' rfl ' ' rfl,
        words_flush_cons '0' rfl ' ' rfl,
        words_flush_cons '0' rfl ' ' rfl,
        words_flush imin hwimin ' ' rfl,
        words_flush imax hwimax ' ' rfl,
        words_flush_cons2 '-' '1' rfl rfl ' ' rfl,
        words_flush_cons2 '-' '1' rfl rfl ' ' rfl,
        words_flush_cons2 '-' '1' rfl rfl ' ' rfl,
        words_flush_cons2 '-' '1' rfl rfl '\n' rfl,
        words_nil]
  · intro s flux glon glat idx imin imax ce cmin cmax ff line hty hflux
      hwflux hglon hwglon hglat hwglat hidx hwidx hff hce hwce himin hwimin
      himax hwimax hcmin hwcmin hcmax hwcmax hwname hwloc hline
    have hc1 : (s.spectrum.type == "PLSuperExpCutoff".toList) = false := by
      rw [hty]; rfl
    have hc2 : (s.spectrum.type == "PowerLaw".toList) = false := by
      rw [hty]; rfl
    have hc3 : (s.spectrum.type == "PLExpCutoff".toList) = true := by
      rw [hty]; rfl
    simp only [convertSourceToAgileFormat, hflux, hglon, hglat, hc1, hc2, hc3,
      Bool.false_eq_true, if_false, if_true, hidx, hff, hce, himin, himax,
      hcmin, hcmax, Option.bind_eq_bind', Option.some_bind',
      Option.some.injEq] at hline
    subst hline
    unfold words
    simp only [List.append_assoc, List.cons_append, List.nil_append]
    rw [words_flush flux hwflux ' ' rfl,
        words_flush glon hwglon ' ' rfl,
        words_flush glat hwglat ' ' rfl,
        words_flush idx hwidx ' ' rfl,
        words_flush (natDigits ff) (natDigits_word ff) ' ' rfl,
        words_flush_cons '2' rfl ' ' rfl,
        words_flush s.name hwname ' ' rfl,
        words_flush s.spatialModel.location_limit hwloc ' ' rfl,
        words_flush_cons '1' rfl ' ' rfl,
        words_flush ce hwce ' ' rfl,
        words_flush_cons '0' rfl ' ' rfl,
        words_flush imin hwimin ' ' rfl,
        words_flush imax hwimax ' ' rfl,
        words_flush cmin hwcmin ' ' rfl,
        words_flush cmax hwcmax ' ' rfl,
        words_sep ' ' rfl,
        words_flush_cons2 '-' '1' rfl rfl ' ' rfl,
        words_flush_cons2 '-' '1' rfl rfl '\n' rfl,
        words_nil]
  · intro s flux glon glat idx1 i1min i1max ce i2 cmin cmax i2min i2max ff
      line hty hflux hwflux hglon hwglon hglat hwglat hidx1 hwidx1 hff hce
      hwce hi2 hwi2 hi1min hwi1min hi1max hwi1max hcmin hwcmin hcmax hwcmax
      hi2min hwi2min hi2max hwi2max hwname hwloc hline
    have hc1 : (s.spectrum.type == "PLSuperExpCutoff".toList) = true := by
      rw [hty]; rfl
    have hc2 : (s.spectrum.type == "PowerLaw".toList) = false := by
      rw [hty]; rfl
    have hc3 : (s.spectrum.type == "PLExpCutoff".toList) = false := by
      rw [hty]; rfl
    simp only [convertSourceToAgileFormat, hflux, hglon, hglat, hc1, hc2, hc3,
      Bool.false_eq_true, if_false, if_true, hidx1, hff, hce, hi2, hi1min,
      hi1max, hcmin, hcmax, hi2min, hi2max, Option.bind_eq_bind',
      Option.some_bind', Option.some.injEq] at hline
    subst hline
    unfold words
    simp only [List.append_assoc, List.cons_append, List.nil_append]
    rw [words_flush flux hwflux ' ' rfl,
        words_flush glon hwglon ' ' rfl,
        words_flush glat hwglat ' ' rfl,
        words_flush idx1 hwidx1 ' ' rfl,
        words_flush (natDigits ff) (natDigits_word ff) ' ' rfl,
        words_flush_cons '2' rfl ' ' rfl,
        words_flush s.name hwname ' ' rfl,
        words_flush s.spatialModel.location_limit hwloc ' ' rfl,
        words_flush_cons '2' rfl ' ' rfl,
        words_flush ce hwce ' ' rfl,
        words_flush i2 hwi2 ' ' rfl,
        words_flush i1min hwi1min ' ' rfl,
        words_flush i1max hwi1max ' ' rfl,
        words_flush cmin hwcmin ' ' rfl,
        words_flush cmax hwcmax ' ' rfl,
        words_flush i2min hwi2min ' ' rfl,
        words_flush i2max hwi2max '\n' rfl,
        words_nil]
  · intro s flux glon glat idx imin imax pe cv pmin pmax cvmin cvmax ff line
      hc2 hc3 hc1 hflux hwflux hglon hwglon hglat hwglat hidx hwidx hff hpe
      hwpe hcv hwcv himin hwimin himax hwimax hpmin hwpmin hpmax hwpmax
      hcvmin hwcvmin hcvmax hwcvmax hwname hwloc hline
    simp only [convertSourceToAgileFormat, hflux, hglon, hglat, hc1, hc2, hc3,
      Bool.false_eq_true, if_false, if_true, hidx, hff, hpe, hcv, himin,
      himax, hpmin, hpmax, hcvmin, hcvmax, Option.bind_eq_bind',
      Option.some_bind', Option.some.injEq] at hline
    subst hline
    unfold words
    simp only [List.append_assoc, List.cons_append, List.nil_append]
    rw [words_flush flux hwflux ' ' rfl,
        words_flush glon hwglon ' ' rfl,
        words_flush glat hwglat ' ' rfl,
        words_flush idx hwidx ' ' rfl,
        words_flush (natDigits ff) (natDigits_word ff) ' ' rfl,
        words_flush_cons '2' rfl ' ' rfl,
        words_flush s.name hwname ' ' rfl,
        words_flush s.spatialModel.location_limit hwloc ' ' rfl,
        words_flush_cons '3' rfl ' ' rfl,
        words_flush pe hwpe ' ' rfl,
        words_flush cv hwcv ' ' rfl,
        words_flush imin hwimin ' ' rfl,
        words_flush imax hwimax ' ' rfl,
        words_flush pmin hwpmin ' ' rfl,
        words_flush pmax hwpmax ' ' rfl,
        words_flush cvmin hwcvmin ' ' rfl,
        words_flush cvmax hwcvmax '\n' rfl,
        words_nil]

theorem c3_witness :
    ∃ line, convertSourceToAgileFormat src3 = some line
      ∧ words line = [['5'], ['3', '0'], ['4'], ['2'], natDigits 21, ['2'],
          "src3".toList, ['2'], ['2'], "3000".toList, ['1'], ['1'], ['3'],
          "20".toList, "8000".toList, ['0'], ['4']] := by
  obtain ⟨line, hline⟩ :
      ∃ line, convertSourceToAgileFormat src3 = some line := ⟨_, rfl⟩
  refine ⟨line, hline, ?_⟩
  exact c3_convertToAgileFormat_fields.2.2.1 src3 ['5'] ['3', '0'] ['4'] ['2']
    ['1'] ['3'] "3000".toList ['1'] "20".toList "8000".toList ['0'] ['4'] 21
    line rfl rfl (by decide) rfl (by decide) rfl (by decide) rfl (by decide)
    rfl rfl (by decide) rfl (by decide) rfl (by decide) rfl (by decide) rfl
    (by decide) rfl (by decide) rfl (by decide) rfl (by decide) (by decide)
    (by decide) hline

lemma processLine_ne_formatError (i : Nat) (line : Str) :
    processLine i line ≠ .error .formatError := by
  unfold processLine
  cases processLineCore i line with
  | none => simp
  | some vs => simp

lemma processBody_ne_formatError (i : Nat) (ls : List Str) :
    processBody i ls ≠ .error .formatError := by
  induction ls generalizing i with
  | nil => simp [processBody]
  | cons l ls ih =>
      unfold processBody
      cases hl : processLine i l with
      | error e =>
          have hne := processLine_ne_formatError i l
          rw [hl] at hne
          intro h
          injection h with h1
          rw [h1] at hne
          exact hne rfl
      | ok vs =>
          cases hr : processBody (i + 1) ls with
          | error e =>
              have hne := ih (i + 1)
              rw [hr] at hne
              intro h
              injection h with h1
              rw [h1] at hne
              exact hne rfl
          | ok rest => simp

lemma filter_itemNonempty_map_str (xs : List Str) :
    (xs.map Item.str).filter itemNonempty
      = (xs.filter (fun v => !v.isEmpty)).map Item.str := by
  induction xs with
  | nil => rfl
  | cons x xs ih =>
      by_cases hx : x.isEmpty
      · simp [itemNonempty, hx, ih]
      · simp [itemNonempty, hx, ih]

/-- Claim C5 (amended): lines beginning with `!` are discarded; the fatal
format error is raised exactly when the remaining line count differs from 17;
and with 17 remaining lines whose position-dependent tokenization succeeds,
parsing succeeds and field 0 of the positional record is the first
decoration-stripped token of line 0. -/
theorem c5_parseSourceFile_spec (lines : List Str) :
    (parseSourceFile lines = .error .formatError
      ↔ (lines.filter (fun l => !(l.head? == some '!'))).length ≠ 17)
    ∧ (∀ l0 rest vs,
        lines.filter (fun l => !(l.head? == some '!')) = l0 :: rest →
        (l0 :: rest).length = 17 →
        processBody 0 (l0 :: rest) = .ok vs →
        parseSourceFile lines = .ok vs
        ∧ ∀ t, (line0Tokens l0).head? = some t →
            vs.head? = some (.str t)) := by
  constructor
  · unfold parseSourceFile
    by_cases hlen :
        (lines.filter (fun l => !(l.head? == some '!'))).length ≠ 17
    · rw [if_pos hlen]
      exact ⟨fun _ => hlen, fun _ => rfl⟩
    · rw [if_neg hlen]
      constructor
      · intro h
        exact absurd h (processBody_ne_formatError 0 _)
      · intro h
        exact absurd h hlen
  · intro l0 rest vs hbody hlen hproc
    have hparse : parseSourceFile lines = .ok vs := by
      unfold parseSourceFile
      rw [hbody]
      rw [if_neg (by simp [hlen])]
      exact hproc
    refine ⟨hparse, ?_⟩
    intro t ht
    unfold processBody at hproc
    cases hl : processLine 0 l0 with
    | error e =>
        rw [hl] at hproc
        exact absurd hproc (by simp)
    | ok v0 =>
        rw [hl] at hproc
        cases hr : processBody 1 rest with
        | error e =>
            rw [hr] at hproc
            exact absurd hproc (by simp)
        | ok restItems =>
            rw [hr] at hproc
            injection hproc with hv
            have hv0 : v0 = (line0Tokens l0).map Item.str := by
              unfold processLine processLineCore at hl
              simp only [if_pos rfl] at hl
              injection hl with h1
              rw [← h1, filter_itemNonempty_map_str]
              rfl
            rw [← hv, hv0]
            cases hts : line0Tokens l0 with
            | nil => rw [hts] at ht; cases ht
            | cons t0 ts =>
                rw [hts] at ht
                injection ht with ht0
                simp [ht0]

/-- Claim C5 counterexample: on `badLines` there are exactly 17 non-comment
lines, yet `parseSourceFile` does not succeed (it dies with the index error of
line 8), refuting the claim that 17 remaining lines suffice for success. -/
theorem c5_counterexample :
    (badLines.filter (fun l => !(l.head? == some '!'))).length = 17
    ∧ parseSourceFile badLines = .error .indexError :=
  ⟨rfl, rfl⟩

theorem c5_witness :
    ∃ vs, parseSourceFile goodLines = .ok vs
      ∧ vs.head? = some (Item.str ['7']) := by
  have h := (c5_parseSourceFile_spec goodLines).2
    ("[ 7 ]\n".toList) _ _ rfl rfl rfl
  exact ⟨_, h.1, h.2 ['7'] rfl⟩

/-- Claim C10: `checkEnergyBin` returns true exactly when the element-wise
integer-coerced bin is a member of the fixed 28-entry `energybins` table, and
false otherwise; the table is a constant (never modified). -/
theorem c10_checkEnergyBin_spec :
    (∀ energyBin : List ℚ,
      Parameters.checkEnergyBin energyBin = true
        ↔ energyBin.map truncToInt ∈ Parameters.energybins)
    ∧ Parameters.energybins.length = 28 := by
  constructor
  · intro bin
    unfold Parameters.checkEnergyBin
    by_cases h : bin.map truncToInt ∈ Parameters.energybins
    · simp [h]
    · simp [h]
  · rfl

end Agilepy
